import Mathlib

/-
Verification development for the subpiper repository
(src/subpiper/subpiper.py).

The Python module launches a child process, reads its stdout and stderr on
two listener threads that push rstripped lines into two queues, and runs a
supervisory loop that pops one line per queue per tick, appends non-empty
lines to per-stream buffers and hands them to user callbacks or prints them,
polls the process for its exit status, drains the queues after exit, and
finally invokes an optional finished callback with the exit code.

The embedding below is a shallow, executable model of that code:
queues are lists (put appends at the back, get_nowait pops the front),
the observable actions of one run (callback invocations, prints to the
default sinks, the finished callback) are recorded as a list of events,
and the scheduling freedom of the threads is made explicit through
parameters (how many lines are already enqueued when the supervisory loop
looks, how many polls return no exit status before the exit is observed).
-/

namespace Subpiper

/-- ASCII whitespace as stripped by the Python str.rstrip method with no
argument: space, tab, newline, carriage return, vertical tab, form feed. -/
def isPySpace (c : Char) : Bool :=
  c == ' ' || c == '\t' || c == '\n' || c == '\r' || c == '\x0b' || c == '\x0c'

/-- Python str.rstrip with no argument: remove all trailing whitespace,
not only the line terminator. Used by the listener threads on every line
(subpiper.py line 158: queue.put(line.rstrip())). -/
def rstrip (s : String) : String :=
  String.mk (s.data.reverse.dropWhile isPySpace).reverse

/-- The queue contents produced by one listener thread
(subpiper.py lines 148-159, method named enqueue lines with a leading
underscore). The thread iterates readline against the bytes sentinel, but
in text mode (universal_newlines=True) readline returns a str, which never
equals the bytes sentinel, so after end of stream the loop keeps reading
the empty string and enqueues an empty string each time; eofReads is how
many such post-end reads happened by the observation point. Every real
line is enqueued rstripped, in order. -/
def enqueue_lines (raw : List String) (eofReads : Nat) : List String :=
  raw.map rstrip ++ List.replicate eofReads ""

/-- Observable actions of one run: a stdout callback invocation, a stderr
callback invocation, a print to sys.stdout, a print to sys.stderr, and the
finished callback invocation with the exit code. -/
inductive Event where
  | stdoutCb (line : String)
  | stderrCb (line : String)
  | printOut (line : String)
  | printErr (line : String)
  | finishedCb (retcode : Int)
deriving DecidableEq, Repr

/-- Which optional arguments the run was given: whether a stdout callback
and a stderr callback were supplied, and the silent flag. -/
structure Config where
  hasStdoutCb : Bool
  hasStderrCb : Bool
  silent : Bool
deriving DecidableEq, Repr

/-- The mutable state of one run as seen by the supervisory loop: the two
line queues (front of the list is the front of the queue) and the two
accumulated output buffers. -/
structure PState where
  outQueue : List String
  errQueue : List String
  stdoutBuffer : List String
  stderrBuffer : List String
deriving DecidableEq, Repr

/-- Destination of one non-empty stdout line (subpiper.py lines 171-177):
the stdout callback when supplied, otherwise a print to sys.stdout unless
silent. -/
def dispatch_out (cfg : Config) (line : String) : List Event :=
  if cfg.hasStdoutCb then [Event.stdoutCb line]
  else if cfg.silent then [] else [Event.printOut line]

/-- Destination of one non-empty stderr line (subpiper.py lines 178-184):
the stderr callback when supplied, otherwise a print to sys.stderr unless
silent. -/
def dispatch_err (cfg : Config) (line : String) : List Event :=
  if cfg.hasStderrCb then [Event.stderrCb line]
  else if cfg.silent then [] else [Event.printErr line]

/-- One dispatch tick (subpiper.py lines 161-184, method named handle
lines with a leading underscore): take the empty string when a queue is
empty, otherwise pop its front; append each popped line to its buffer and
dispatch it, but only when the line is non-empty (Python truthiness of the
popped string). -/
def handle_lines (cfg : Config) (s : PState) : PState × List Event :=
  let oline := s.outQueue.headD ""
  let eline := s.errQueue.headD ""
  let s1 : PState := { s with outQueue := s.outQueue.tail, errQueue := s.errQueue.tail }
  let s2 : PState :=
    if oline ≠ "" then { s1 with stdoutBuffer := s1.stdoutBuffer ++ [oline] } else s1
  let oev : List Event := if oline ≠ "" then dispatch_out cfg oline else []
  let s3 : PState :=
    if eline ≠ "" then { s2 with stderrBuffer := s2.stderrBuffer ++ [eline] } else s2
  let eev : List Event := if eline ≠ "" then dispatch_err cfg eline else []
  (s3, oev ++ eev)

/-- Lines handed to the stdout callback, in order, within an event list. -/
def stdoutCbLines (evs : List Event) : List String :=
  evs.filterMap fun e =>
    match e with
    | Event.stdoutCb l => some l
    | _ => none

/-- Lines handed to the stderr callback, in order, within an event list. -/
def stderrCbLines (evs : List Event) : List String :=
  evs.filterMap fun e =>
    match e with
    | Event.stderrCb l => some l
    | _ => none

/-- Lines printed to sys.stdout, in order, within an event list. -/
def printOutLines (evs : List Event) : List String :=
  evs.filterMap fun e =>
    match e with
    | Event.printOut l => some l
    | _ => none

/-- Lines printed to sys.stderr, in order, within an event list. -/
def printErrLines (evs : List Event) : List String :=
  evs.filterMap fun e =>
    match e with
    | Event.printErr l => some l
    | _ => none

/-- Exit codes delivered to the finished callback within an event list. -/
def finishedLines (evs : List Event) : List Int :=
  evs.filterMap fun e =>
    match e with
    | Event.finishedCb rc => some rc
    | _ => none

/-- One tick pops the front of each queue: the stdout queue of the
resulting state is the tail of the stdout queue. -/
theorem handle_lines_outQueue (cfg : Config) (s : PState) :
    (handle_lines cfg s).1.outQueue = s.outQueue.tail := by
  simp only [handle_lines]
  split <;> split <;> rfl

/-- One tick pops the front of each queue: the stderr queue of the
resulting state is the tail of the stderr queue. -/
theorem handle_lines_errQueue (cfg : Config) (s : PState) :
    (handle_lines cfg s).1.errQueue = s.errQueue.tail := by
  simp only [handle_lines]
  split <;> split <;> rfl

/-- Python truthiness of a queue snapshot: any(queue.queue) is true when
some queued string is non-empty. -/
def any_truthy (q : List String) : Bool :=
  q.any fun l => l ≠ ""

/-- When neither break condition of the drain loop holds after a tick, the
tick shortened the queues: the loop terminates. -/
theorem drain_measure (cfg : Config) (s : PState)
    (h : ¬ ((((handle_lines cfg s).1.outQueue = [] ∧ (handle_lines cfg s).1.errQueue = []) ∨
      (¬ any_truthy (handle_lines cfg s).1.outQueue ∨
       ¬ any_truthy (handle_lines cfg s).1.errQueue)))) :
    (handle_lines cfg s).1.outQueue.length + (handle_lines cfg s).1.errQueue.length <
      s.outQueue.length + s.errQueue.length := by
  push_neg at h
  have ho := handle_lines_outQueue cfg s
  have he := handle_lines_errQueue cfg s
  rcases h with ⟨-, h2, h3⟩
  have ho' : s.outQueue ≠ [] := by
    intro hnil
    rw [ho, hnil] at h2
    simp [any_truthy] at h2
  have he' : s.errQueue ≠ [] := by
    intro hnil
    rw [he, hnil] at h3
    simp [any_truthy] at h3
  rw [ho, he]
  cases hso : s.outQueue with
  | nil => exact absurd hso ho'
  | cons a as =>
    cases hse : s.errQueue with
    | nil => exact absurd hse he'
    | cons b bs => simp [List.length_cons]; omega

/-- The post-exit drain loop (subpiper.py lines 198-205): sleep, run one
dispatch tick, then stop when both queues are empty, or when either queue
holds no non-empty line; otherwise repeat. The two break conditions of the
Python loop are merged into one disjunction, which returns the same
result. -/
def drain_loop (cfg : Config) (s : PState) : PState × List Event :=
  if ((handle_lines cfg s).1.outQueue = [] ∧ (handle_lines cfg s).1.errQueue = []) ∨
      (¬ any_truthy (handle_lines cfg s).1.outQueue ∨
       ¬ any_truthy (handle_lines cfg s).1.errQueue) then
    handle_lines cfg s
  else
    ((drain_loop cfg (handle_lines cfg s).1).1,
     (handle_lines cfg s).2 ++ (drain_loop cfg (handle_lines cfg s).1).2)
termination_by s.outQueue.length + s.errQueue.length
decreasing_by
  rename_i h
  exact drain_measure cfg s h

/-- The pre-exit part of the supervisory loop, unrolled for a given number
of ticks: run the dispatch tick that many times (subpiper.py lines
192-195 run one tick per iteration before each poll). -/
def run_ticks (cfg : Config) : Nat → PState → PState × List Event
  | 0, s => (s, [])
  | n + 1, s =>
    ((run_ticks cfg n (handle_lines cfg s).1).1,
     (handle_lines cfg s).2 ++ (run_ticks cfg n (handle_lines cfg s).1).2)

/-- The supervisory loop (subpiper.py lines 186-211, method named wait for
process with a leading underscore), for the schedule in which the poll
returns no exit status t times and then returns the exit code: t + 1
dispatch ticks run before the exit is observed (one tick precedes every
poll), then the drain loop runs, then the finished callback fires when one
was supplied, and the exit code is returned. The queue contents found
along the way are those of the state argument; lines the listener threads
enqueue later are modelled by choosing a larger initial queue. -/
def wait_for_process (cfg : Config) (hasFinishedCb : Bool) (t : Nat)
    (retcode : Int) (s : PState) : PState × List Event × Int :=
  let m := run_ticks cfg (t + 1) s
  let d := drain_loop cfg m.1
  (d.1, m.2 ++ d.2 ++ (if hasFinishedCb then [Event.finishedCb retcode] else []), retcode)

/-- An environment is a Python dict from variable names to values,
modelled as an association list with unique keys kept in insertion
order. -/
def Env := List (String × String)

/-- Dict lookup: value of the first entry with the given key, defaulting
to the empty string (the code assumes PATH is present). -/
def env_get (e : Env) (k : String) : String :=
  match e with
  | [] => ""
  | kv :: rest => if kv.1 = k then kv.2 else env_get rest k

/-- Dict assignment: replace the value of the first entry with the given
key, or append a new entry when the key is absent. -/
def env_set (e : Env) (k v : String) : Env :=
  match e with
  | [] => [(k, v)]
  | kv :: rest => if kv.1 = k then (k, v) :: rest else kv :: env_set rest k v

/-- The PATH extension loop of execute (subpiper.py lines 113-116):
local env starts as a copy of the caller environment, then for each entry
of add path list in order, PATH is reassigned to that entry, a literal
semicolon, and the previous PATH. -/
def build_local_env (addPaths : List String) (callerEnv : Env) : Env :=
  addPaths.foldl (fun acc p => env_set acc "PATH" (p ++ ";" ++ env_get acc "PATH")) callerEnv

/-- The PATH the specification describes, spelled from the words of the
spec: each pathPrepend entry in argument order, each followed by the
separator, prepended before the inherited PATH, the first entry first. -/
def spec_child_path : List String → String → String → String
  | [], _, origPath => origPath
  | p :: ps, sep, origPath => p ++ sep ++ spec_child_path ps sep origPath

/-- The command argument: either a single string or a token list, as
Popen accepts with shell=False. -/
inductive Cmd where
  | str (s : String)
  | list (args : List String)
deriving DecidableEq, Repr

/-- Errors the process creation itself can raise. -/
inductive SpawnException where
  | fileNotFound (name : String)
  | permissionDenied (name : String)
  | indexError
deriving DecidableEq, Repr

/-- The error taxonomy of the specification, used to compare the spec
against the code: a distinct invalid command error, or the exception the
spawn raised. The code of subpiper.py defines no invalid command error of
its own. -/
inductive RunError where
  | invalidCommand
  | spawnError (e : SpawnException)
deriving DecidableEq, Repr

/-- Model of subprocess.Popen(cmd, shell=False), parametrised by a
resolver that says whether launching a given program name fails and how.
An empty argument list raises IndexError (args[0] is read before any
process is created); a string command is used as the program name itself.
A well formed resolver sends the empty program name to a file not found
error, since no executable has an empty name; theorems that need this
state it as a hypothesis. No process is created when an exception is
raised. -/
def popen (resolve : String → Option SpawnException) : Cmd → Except SpawnException Unit
  | Cmd.str s =>
    match resolve s with
    | some e => Except.error e
    | none => Except.ok ()
  | Cmd.list [] => Except.error SpawnException.indexError
  | Cmd.list (p :: _) =>
    match resolve p with
    | some e => Except.error e
    | none => Except.ok ()

/-- What the child process does in one run: the raw stdout lines and raw
stderr lines it writes (as readline returns them, terminator included)
and its exit code. -/
structure ChildBehavior where
  outLines : List String
  errLines : List String
  retcode : Int
deriving DecidableEq, Repr

/-- Everything observable about one call of execute: the caller
environment after the call, the child environment that was built, whether
the two listener threads were started, whether the background wait thread
was started, the returned value or raised exception (an Option holds the
blocking mode triple, none in non-blocking mode), the recorded events,
and the queue contents left behind when the supervisory loop stopped. -/
structure ExecOutcome where
  callerEnv : Env
  childEnv : Env
  readersStarted : Bool
  waitTaskStarted : Bool
  result : Except SpawnException (Option (Int × List String × List String))
  events : List Event
  finalOutQueue : List String
  finalErrQueue : List String

/-- The execute method (subpiper.py lines 112-146) composed with the
supervisory loop: build the local environment, call Popen (an exception
propagates before any thread is started), start the listener threads, and
either run the supervisory loop on the calling thread and return the
triple of exit code and buffers (finished callback absent) or start the
wait thread and return none (finished callback present). The scheduling
parameters pick the modelled interleaving: the supervisory loop finds the
enqueued lines (eofOut and eofErr post-end empty strings included)
already in the queues, and observes the exit after t polls that returned
nothing. In non-blocking mode the recorded events are those of the
background wait thread run to completion. -/
def execute (resolve : String → Option SpawnException) (cmd : Cmd)
    (addPaths : List String) (callerEnv : Env) (cfg : Config)
    (hasFinishedCb : Bool) (child : ChildBehavior) (eofOut eofErr : Nat)
    (t : Nat) : ExecOutcome :=
  let localEnv := build_local_env addPaths callerEnv
  match popen resolve cmd with
  | Except.error e =>
    { callerEnv := callerEnv, childEnv := localEnv,
      readersStarted := false, waitTaskStarted := false,
      result := Except.error e, events := [],
      finalOutQueue := [], finalErrQueue := [] }
  | Except.ok _ =>
    let s0 : PState :=
      { outQueue := enqueue_lines child.outLines eofOut,
        errQueue := enqueue_lines child.errLines eofErr,
        stdoutBuffer := [], stderrBuffer := [] }
    if hasFinishedCb then
      let w := wait_for_process cfg true t child.retcode s0
      { callerEnv := callerEnv, childEnv := localEnv,
        readersStarted := true, waitTaskStarted := true,
        result := Except.ok none, events := w.2.1,
        finalOutQueue := w.1.outQueue, finalErrQueue := w.1.errQueue }
    else
      let w := wait_for_process cfg false t child.retcode s0
      { callerEnv := callerEnv, childEnv := localEnv,
        readersStarted := true, waitTaskStarted := false,
        result := Except.ok (some (w.2.2, w.1.stdoutBuffer, w.1.stderrBuffer)),
        events := w.2.1,
        finalOutQueue := w.1.outQueue, finalErrQueue := w.1.errQueue }

/-- The error the caller sees, mapped onto the error taxonomy of the
spec: the code only ever surfaces the raw spawn exception. -/
def run_error (o : ExecOutcome) : Option RunError :=
  match o.result with
  | Except.error e => some (RunError.spawnError e)
  | Except.ok _ => none

/-- Lines printed to the default sink or handed to the callback of the
stdout stream, depending on whether a stdout callback was supplied. -/
def out_sink_lines (cfg : Config) (evs : List Event) : List String :=
  if cfg.hasStdoutCb then stdoutCbLines evs else printOutLines evs

/-- Lines printed to the default sink or handed to the callback of the
stderr stream, depending on whether a stderr callback was supplied. -/
def err_sink_lines (cfg : Config) (evs : List Event) : List String :=
  if cfg.hasStderrCb then stderrCbLines evs else printErrLines evs

section EventLemmas

variable (cfg : Config) (l : String) (a b : List Event)

@[simp] theorem stdoutCbLines_nil : stdoutCbLines [] = [] := rfl

@[simp] theorem stderrCbLines_nil : stderrCbLines [] = [] := rfl

@[simp] theorem printOutLines_nil : printOutLines [] = [] := rfl

@[simp] theorem printErrLines_nil : printErrLines [] = [] := rfl

@[simp] theorem finishedLines_nil : finishedLines [] = [] := rfl

@[simp] theorem stdoutCbLines_append :
    stdoutCbLines (a ++ b) = stdoutCbLines a ++ stdoutCbLines b :=
  List.filterMap_append a b _

@[simp] theorem stderrCbLines_append :
    stderrCbLines (a ++ b) = stderrCbLines a ++ stderrCbLines b :=
  List.filterMap_append a b _

@[simp] theorem printOutLines_append :
    printOutLines (a ++ b) = printOutLines a ++ printOutLines b :=
  List.filterMap_append a b _

@[simp] theorem printErrLines_append :
    printErrLines (a ++ b) = printErrLines a ++ printErrLines b :=
  List.filterMap_append a b _

@[simp] theorem finishedLines_append :
    finishedLines (a ++ b) = finishedLines a ++ finishedLines b :=
  List.filterMap_append a b _

@[simp] theorem stdoutCbLines_dispatch_err :
    stdoutCbLines (dispatch_err cfg l) = [] := by
  unfold dispatch_err
  split_ifs <;> rfl

@[simp] theorem stderrCbLines_dispatch_out :
    stderrCbLines (dispatch_out cfg l) = [] := by
  unfold dispatch_out
  split_ifs <;> rfl

@[simp] theorem printOutLines_dispatch_err :
    printOutLines (dispatch_err cfg l) = [] := by
  unfold dispatch_err
  split_ifs <;> rfl

@[simp] theorem printErrLines_dispatch_out :
    printErrLines (dispatch_out cfg l) = [] := by
  unfold dispatch_out
  split_ifs <;> rfl

@[simp] theorem finishedLines_dispatch_out :
    finishedLines (dispatch_out cfg l) = [] := by
  unfold dispatch_out
  split_ifs <;> rfl

@[simp] theorem finishedLines_dispatch_err :
    finishedLines (dispatch_err cfg l) = [] := by
  unfold dispatch_err
  split_ifs <;> rfl

theorem stdoutCbLines_dispatch_out (h : cfg.hasStdoutCb = true) :
    stdoutCbLines (dispatch_out cfg l) = [l] := by
  simp [dispatch_out, h, stdoutCbLines]

theorem stderrCbLines_dispatch_err (h : cfg.hasStderrCb = true) :
    stderrCbLines (dispatch_err cfg l) = [l] := by
  simp [dispatch_err, h, stderrCbLines]

/-- The line a dispatch hands to the sink of the stdout stream: exactly
the dispatched line when a callback is present or silent is unset, and
nothing when silent is set with no callback. -/
theorem out_sink_lines_dispatch_out (h : cfg.hasStdoutCb = true ∨ cfg.silent = false) :
    out_sink_lines cfg (dispatch_out cfg l) = [l] := by
  rcases cfg with ⟨hso, hse, hsi⟩
  rcases h with h | h <;> simp_all [out_sink_lines, dispatch_out, stdoutCbLines, printOutLines]

theorem err_sink_lines_dispatch_err (h : cfg.hasStderrCb = true ∨ cfg.silent = false) :
    err_sink_lines cfg (dispatch_err cfg l) = [l] := by
  rcases cfg with ⟨hso, hse, hsi⟩
  rcases h with h | h <;> simp_all [err_sink_lines, dispatch_err, stderrCbLines, printErrLines]

@[simp] theorem out_sink_lines_nil : out_sink_lines cfg [] = [] := by
  unfold out_sink_lines
  split_ifs <;> rfl

@[simp] theorem err_sink_lines_nil : err_sink_lines cfg [] = [] := by
  unfold err_sink_lines
  split_ifs <;> rfl

@[simp] theorem out_sink_lines_append :
    out_sink_lines cfg (a ++ b) = out_sink_lines cfg a ++ out_sink_lines cfg b := by
  unfold out_sink_lines
  split_ifs <;> simp

@[simp] theorem err_sink_lines_append :
    err_sink_lines cfg (a ++ b) = err_sink_lines cfg a ++ err_sink_lines cfg b := by
  unfold err_sink_lines
  split_ifs <;> simp

@[simp] theorem out_sink_lines_dispatch_err :
    out_sink_lines cfg (dispatch_err cfg l) = [] := by
  unfold out_sink_lines
  split_ifs <;> simp

@[simp] theorem err_sink_lines_dispatch_out :
    err_sink_lines cfg (dispatch_out cfg l) = [] := by
  unfold err_sink_lines
  split_ifs <;> simp

end EventLemmas

/-- The events of one tick: the dispatch of the popped stdout line when it
is non-empty, followed by the dispatch of the popped stderr line when it
is non-empty. -/
theorem handle_lines_events (cfg : Config) (s : PState) :
    (handle_lines cfg s).2 =
      (if s.outQueue.headD "" ≠ "" then dispatch_out cfg (s.outQueue.headD "") else []) ++
      (if s.errQueue.headD "" ≠ "" then dispatch_err cfg (s.errQueue.headD "") else []) := rfl

/-- One tick appends the popped stdout line to the stdout buffer exactly
when the line is non-empty. -/
theorem handle_lines_stdoutBuffer (cfg : Config) (s : PState) :
    (handle_lines cfg s).1.stdoutBuffer =
      s.stdoutBuffer ++ (if s.outQueue.headD "" ≠ "" then [s.outQueue.headD ""] else []) := by
  simp only [handle_lines]
  split_ifs <;> simp

/-- One tick appends the popped stderr line to the stderr buffer exactly
when the line is non-empty. -/
theorem handle_lines_stderrBuffer (cfg : Config) (s : PState) :
    (handle_lines cfg s).1.stderrBuffer =
      s.stderrBuffer ++ (if s.errQueue.headD "" ≠ "" then [s.errQueue.headD ""] else []) := by
  simp only [handle_lines]
  split_ifs <;> simp

@[simp] theorem finishedLines_handle_lines (cfg : Config) (s : PState) :
    finishedLines (handle_lines cfg s).2 = [] := by
  rw [handle_lines_events]
  split_ifs <;> simp

/-- A tick appends to the stdout buffer exactly what it hands to the
stdout callback or prints to sys.stdout, provided a callback is present
or silent is unset. -/
theorem handle_lines_out_buffer (cfg : Config) (s : PState)
    (h : cfg.hasStdoutCb = true ∨ cfg.silent = false) :
    (handle_lines cfg s).1.stdoutBuffer =
      s.stdoutBuffer ++ out_sink_lines cfg (handle_lines cfg s).2 := by
  rw [handle_lines_events, handle_lines_stdoutBuffer]
  split_ifs with h1 h2 <;>
    simp [out_sink_lines_dispatch_out cfg _ h, out_sink_lines_dispatch_err]

/-- A tick appends to the stderr buffer exactly what it hands to the
stderr callback or prints to sys.stderr, provided a callback is present
or silent is unset. -/
theorem handle_lines_err_buffer (cfg : Config) (s : PState)
    (h : cfg.hasStderrCb = true ∨ cfg.silent = false) :
    (handle_lines cfg s).1.stderrBuffer =
      s.stderrBuffer ++ err_sink_lines cfg (handle_lines cfg s).2 := by
  rw [handle_lines_events, handle_lines_stderrBuffer]
  split_ifs with h1 h2 <;>
    simp [err_sink_lines_dispatch_err cfg _ h, err_sink_lines_dispatch_out]

/-- The stdout callback receives, in one tick, the popped stdout line
when it is non-empty, when a stdout callback was supplied. -/
theorem handle_lines_stdoutCb (cfg : Config) (s : PState)
    (h : cfg.hasStdoutCb = true) :
    stdoutCbLines (handle_lines cfg s).2 =
      (s.outQueue.take 1).filter (fun l => l ≠ "") := by
  rw [handle_lines_events]
  cases hq : s.outQueue with
  | nil => split_ifs <;> simp_all
  | cons a as =>
    split_ifs with h1 h2 <;>
      simp_all [stdoutCbLines_dispatch_out cfg _ h, List.filter_cons]

/-- The stderr callback receives, in one tick, the popped stderr line
when it is non-empty, when a stderr callback was supplied. -/
theorem handle_lines_stderrCb (cfg : Config) (s : PState)
    (h : cfg.hasStderrCb = true) :
    stderrCbLines (handle_lines cfg s).2 =
      (s.errQueue.take 1).filter (fun l => l ≠ "") := by
  rw [handle_lines_events]
  cases hq : s.errQueue with
  | nil => split_ifs <;> simp_all
  | cons a as =>
    split_ifs with h1 h2 <;>
      simp_all [stderrCbLines_dispatch_err cfg _ h, List.filter_cons]

theorem tail_drop_eq (l : List String) (n : Nat) : l.tail.drop n = l.drop (n + 1) := by
  cases l <;> simp

/-- Running n ticks pops the first n entries of the stdout queue. -/
theorem run_ticks_outQueue (cfg : Config) :
    ∀ (n : Nat) (s : PState), (run_ticks cfg n s).1.outQueue = s.outQueue.drop n
  | 0, s => by simp [run_ticks]
  | n + 1, s => by
    have ih := run_ticks_outQueue cfg n (handle_lines cfg s).1
    simp only [run_ticks]
    rw [ih, handle_lines_outQueue, tail_drop_eq]

/-- Running n ticks pops the first n entries of the stderr queue. -/
theorem run_ticks_errQueue (cfg : Config) :
    ∀ (n : Nat) (s : PState), (run_ticks cfg n s).1.errQueue = s.errQueue.drop n
  | 0, s => by simp [run_ticks]
  | n + 1, s => by
    have ih := run_ticks_errQueue cfg n (handle_lines cfg s).1
    simp only [run_ticks]
    rw [ih, handle_lines_errQueue, tail_drop_eq]

/-- The pre-exit ticks never invoke the finished callback. -/
theorem run_ticks_finished (cfg : Config) :
    ∀ (n : Nat) (s : PState), finishedLines (run_ticks cfg n s).2 = []
  | 0, s => by simp [run_ticks]
  | n + 1, s => by
    have ih := run_ticks_finished cfg n (handle_lines cfg s).1
    simp [run_ticks, ih]

/-- The pre-exit ticks keep the stdout buffer equal to what was handed to
the stdout callback or printed, provided a callback is present or silent
is unset. -/
theorem run_ticks_out_buffer (cfg : Config)
    (h : cfg.hasStdoutCb = true ∨ cfg.silent = false) :
    ∀ (n : Nat) (s : PState),
      (run_ticks cfg n s).1.stdoutBuffer =
        s.stdoutBuffer ++ out_sink_lines cfg (run_ticks cfg n s).2
  | 0, s => by simp [run_ticks]
  | n + 1, s => by
    have ih := run_ticks_out_buffer cfg h n (handle_lines cfg s).1
    simp only [run_ticks]
    rw [out_sink_lines_append, ih, handle_lines_out_buffer cfg s h, List.append_assoc]

/-- The pre-exit ticks keep the stderr buffer equal to what was handed to
the stderr callback or printed, provided a callback is present or silent
is unset. -/
theorem run_ticks_err_buffer (cfg : Config)
    (h : cfg.hasStderrCb = true ∨ cfg.silent = false) :
    ∀ (n : Nat) (s : PState),
      (run_ticks cfg n s).1.stderrBuffer =
        s.stderrBuffer ++ err_sink_lines cfg (run_ticks cfg n s).2
  | 0, s => by simp [run_ticks]
  | n + 1, s => by
    have ih := run_ticks_err_buffer cfg h n (handle_lines cfg s).1
    simp only [run_ticks]
    rw [err_sink_lines_append, ih, handle_lines_err_buffer cfg s h, List.append_assoc]

/-- Enough ticks deliver every non-empty stdout line, in order, to the
stdout callback when one was supplied. -/
theorem run_ticks_stdoutCb (cfg : Config) (h : cfg.hasStdoutCb = true) :
    ∀ (n : Nat) (s : PState), s.outQueue.length ≤ n →
      stdoutCbLines (run_ticks cfg n s).2 = s.outQueue.filter (fun l => l ≠ "")
  | 0, s, hn => by
    have : s.outQueue = [] := List.eq_nil_of_length_eq_zero (Nat.le_zero.mp hn)
    simp [run_ticks, this]
  | n + 1, s, hn => by
    have hlen : (handle_lines cfg s).1.outQueue.length ≤ n := by
      rw [handle_lines_outQueue]
      cases hq : s.outQueue with
      | nil => simp
      | cons a as =>
        rw [hq] at hn
        simpa using Nat.lt_succ_iff.mp (Nat.lt_of_lt_of_le (by simp) hn)
    have ih := run_ticks_stdoutCb cfg h n (handle_lines cfg s).1 hlen
    simp only [run_ticks, stdoutCbLines_append]
    rw [ih, handle_lines_stdoutCb cfg s h, handle_lines_outQueue]
    cases hq : s.outQueue with
    | nil => simp
    | cons a as =>
      simp only [List.take_cons, List.take_zero, List.tail_cons, List.filter_cons]
      split_ifs <;> simp_all

/-- Enough ticks deliver every non-empty stderr line, in order, to the
stderr callback when one was supplied. -/
theorem run_ticks_stderrCb (cfg : Config) (h : cfg.hasStderrCb = true) :
    ∀ (n : Nat) (s : PState), s.errQueue.length ≤ n →
      stderrCbLines (run_ticks cfg n s).2 = s.errQueue.filter (fun l => l ≠ "")
  | 0, s, hn => by
    have : s.errQueue = [] := List.eq_nil_of_length_eq_zero (Nat.le_zero.mp hn)
    simp [run_ticks, this]
  | n + 1, s, hn => by
    have hlen : (handle_lines cfg s).1.errQueue.length ≤ n := by
      rw [handle_lines_errQueue]
      cases hq : s.errQueue with
      | nil => simp
      | cons a as =>
        rw [hq] at hn
        simpa using Nat.lt_succ_iff.mp (Nat.lt_of_lt_of_le (by simp) hn)
    have ih := run_ticks_stderrCb cfg h n (handle_lines cfg s).1 hlen
    simp only [run_ticks, stderrCbLines_append]
    rw [ih, handle_lines_stderrCb cfg s h, handle_lines_errQueue]
    cases hq : s.errQueue with
    | nil => simp
    | cons a as =>
      simp only [List.take_cons, List.take_zero, List.tail_cons, List.filter_cons]
      split_ifs <;> simp_all

/-- The drain loop never invokes the finished callback. -/
theorem drain_loop_finished (cfg : Config) (s : PState) :
    finishedLines (drain_loop cfg s).2 = [] := by
  rw [drain_loop]
  split
  · simp
  · rename_i h
    have ih := drain_loop_finished cfg (handle_lines cfg s).1
    simp [ih]
termination_by s.outQueue.length + s.errQueue.length
decreasing_by
  rename_i hcond
  exact drain_measure cfg s hcond

/-- The drain loop on two empty queues stops at once, dispatching
nothing. -/
theorem drain_loop_empty (cfg : Config) (s : PState)
    (h1 : s.outQueue = []) (h2 : s.errQueue = []) :
    drain_loop cfg s = (s, []) := by
  obtain ⟨oq, erq, so, se⟩ := s
  simp only at h1 h2
  subst h1
  subst h2
  rw [drain_loop]
  simp [handle_lines]

/-- The drain loop keeps the stdout buffer equal to what was handed to
the stdout callback or printed, provided a callback is present or silent
is unset. -/
theorem drain_loop_out_buffer (cfg : Config) (s : PState)
    (h : cfg.hasStdoutCb = true ∨ cfg.silent = false) :
    (drain_loop cfg s).1.stdoutBuffer =
      s.stdoutBuffer ++ out_sink_lines cfg (drain_loop cfg s).2 := by
  rw [drain_loop]
  split
  · exact handle_lines_out_buffer cfg s h
  · rename_i hc
    have ih := drain_loop_out_buffer cfg (handle_lines cfg s).1 h
    simp only
    rw [out_sink_lines_append, ih, handle_lines_out_buffer cfg s h, List.append_assoc]
termination_by s.outQueue.length + s.errQueue.length
decreasing_by
  rename_i hcond
  exact drain_measure cfg s hcond

/-- The drain loop keeps the stderr buffer equal to what was handed to
the stderr callback or printed, provided a callback is present or silent
is unset. -/
theorem drain_loop_err_buffer (cfg : Config) (s : PState)
    (h : cfg.hasStderrCb = true ∨ cfg.silent = false) :
    (drain_loop cfg s).1.stderrBuffer =
      s.stderrBuffer ++ err_sink_lines cfg (drain_loop cfg s).2 := by
  rw [drain_loop]
  split
  · exact handle_lines_err_buffer cfg s h
  · rename_i hc
    have ih := drain_loop_err_buffer cfg (handle_lines cfg s).1 h
    simp only
    rw [err_sink_lines_append, ih, handle_lines_err_buffer cfg s h, List.append_assoc]
termination_by s.outQueue.length + s.errQueue.length
decreasing_by
  rename_i hcond
  exact drain_measure cfg s hcond

/-- The drain loop again, structurally recursive on an explicit bound on
the number of iterations, used only to evaluate drain loop runs on
concrete states: with a large enough bound it equals the drain loop. -/
def drain_go (cfg : Config) : Nat → PState → PState × List Event
  | 0, s => (s, [])
  | n + 1, s =>
    if ((handle_lines cfg s).1.outQueue = [] ∧ (handle_lines cfg s).1.errQueue = []) ∨
        (¬ any_truthy (handle_lines cfg s).1.outQueue ∨
         ¬ any_truthy (handle_lines cfg s).1.errQueue) then
      handle_lines cfg s
    else
      ((drain_go cfg n (handle_lines cfg s).1).1,
       (handle_lines cfg s).2 ++ (drain_go cfg n (handle_lines cfg s).1).2)

theorem drain_loop_eq_go (cfg : Config) :
    ∀ (n : Nat) (s : PState), s.outQueue.length + s.errQueue.length < n →
      drain_loop cfg s = drain_go cfg n s
  | 0, s, hn => absurd hn (Nat.not_lt_zero _)
  | n + 1, s, hn => by
    rw [drain_loop]
    rw [drain_go]
    split
    · rfl
    · rename_i hc
      have hlt := drain_measure cfg s hc
      have ih := drain_loop_eq_go cfg n (handle_lines cfg s).1 (by omega)
      rw [ih]

theorem drain_loop_eval (cfg : Config) (s : PState) :
    drain_loop cfg s =
      drain_go cfg (s.outQueue.length + s.errQueue.length + 1) s :=
  drain_loop_eq_go cfg _ s (by omega)

theorem env_get_env_set_self (e : Env) (k v : String) :
    env_get (env_set e k v) k = v := by
  induction e with
  | nil => simp [env_set, env_get]
  | cons kv rest ih =>
    by_cases h : kv.1 = k
    · simp [env_set, env_get, h]
    · simp [env_set, env_get, h, ih]

theorem env_get_env_set_ne (e : Env) (k v k2 : String) (h : k2 ≠ k) :
    env_get (env_set e k v) k2 = env_get e k2 := by
  have h2 : ¬ (k = k2) := fun hh => h (Eq.symm hh)
  induction e with
  | nil => simp [env_set, env_get, h2]
  | cons kv rest ih =>
    by_cases hk : kv.1 = k
    · simp [env_set, env_get, hk, h2]
    · simp only [env_set, if_neg hk]
      by_cases hk2 : kv.1 = k2 <;> simp [env_get, hk2, ih]

theorem build_local_env_cons (p : String) (ps : List String) (env : Env) :
    build_local_env (p :: ps) env =
      build_local_env ps (env_set env "PATH" (p ++ ";" ++ env_get env "PATH")) := rfl

/-- The PATH extension loop touches only the PATH entry. -/
theorem build_local_env_get_ne (ps : List String) (env : Env) (k : String)
    (h : k ≠ "PATH") :
    env_get (build_local_env ps env) k = env_get env k := by
  induction ps generalizing env with
  | nil => rfl
  | cons p rest ih =>
    rw [build_local_env_cons, ih, env_get_env_set_ne _ _ _ _ h]

theorem spec_child_path_append (xs : List String) (p sep orig : String) :
    spec_child_path (xs ++ [p]) sep orig = spec_child_path xs sep (p ++ sep ++ orig) := by
  induction xs with
  | nil => rfl
  | cons x rest ih => simp [spec_child_path, ih]

/-- What the PATH extension loop actually builds: the entries end up in
reverse argument order, each followed by a literal semicolon, before the
inherited PATH. -/
theorem build_local_env_path (ps : List String) (env : Env) :
    env_get (build_local_env ps env) "PATH" =
      spec_child_path ps.reverse ";" (env_get env "PATH") := by
  induction ps generalizing env with
  | nil => rfl
  | cons p rest ih =>
    rw [build_local_env_cons, ih, env_get_env_set_self, List.reverse_cons,
      spec_child_path_append]

theorem wait_for_process_retcode (cfg : Config) (hasFin : Bool) (t : Nat)
    (rc : Int) (s : PState) : (wait_for_process cfg hasFin t rc s).2.2 = rc := rfl

/-- The finished callback fires exactly once, at the end of the
supervisory loop, exactly when one was supplied, with the polled exit
code. -/
theorem wait_for_process_finished (cfg : Config) (hasFin : Bool) (t : Nat)
    (rc : Int) (s : PState) :
    finishedLines (wait_for_process cfg hasFin t rc s).2.1 =
      if hasFin then [rc] else [] := by
  simp only [wait_for_process, finishedLines_append]
  rw [run_ticks_finished, drain_loop_finished]
  cases hasFin <;> simp [finishedLines]

theorem out_sink_lines_finished_ite (cfg : Config) (hasFin : Bool) (rc : Int) :
    out_sink_lines cfg (if hasFin then [Event.finishedCb rc] else []) = [] := by
  cases hasFin <;> unfold out_sink_lines <;> split_ifs <;>
    simp [stdoutCbLines, printOutLines]

theorem err_sink_lines_finished_ite (cfg : Config) (hasFin : Bool) (rc : Int) :
    err_sink_lines cfg (if hasFin then [Event.finishedCb rc] else []) = [] := by
  cases hasFin <;> unfold err_sink_lines <;> split_ifs <;>
    simp [stderrCbLines, printErrLines]

/-- Across the whole supervisory loop the stdout buffer grows by exactly
the lines handed to the stdout callback or printed to sys.stdout,
provided a callback is present or silent is unset. -/
theorem wait_for_process_out_buffer (cfg : Config) (hasFin : Bool) (t : Nat)
    (rc : Int) (s : PState) (h : cfg.hasStdoutCb = true ∨ cfg.silent = false) :
    (wait_for_process cfg hasFin t rc s).1.stdoutBuffer =
      s.stdoutBuffer ++ out_sink_lines cfg (wait_for_process cfg hasFin t rc s).2.1 := by
  simp only [wait_for_process, out_sink_lines_append]
  rw [out_sink_lines_finished_ite, List.append_nil,
    drain_loop_out_buffer cfg _ h, run_ticks_out_buffer cfg h (t + 1) s,
    List.append_assoc]

/-- Across the whole supervisory loop the stderr buffer grows by exactly
the lines handed to the stderr callback or printed to sys.stderr,
provided a callback is present or silent is unset. -/
theorem wait_for_process_err_buffer (cfg : Config) (hasFin : Bool) (t : Nat)
    (rc : Int) (s : PState) (h : cfg.hasStderrCb = true ∨ cfg.silent = false) :
    (wait_for_process cfg hasFin t rc s).1.stderrBuffer =
      s.stderrBuffer ++ err_sink_lines cfg (wait_for_process cfg hasFin t rc s).2.1 := by
  simp only [wait_for_process, err_sink_lines_append]
  rw [err_sink_lines_finished_ite, List.append_nil,
    drain_loop_err_buffer cfg _ h, run_ticks_err_buffer cfg h (t + 1) s,
    List.append_assoc]

/-- When the pre-exit ticks already cover both queues, the drain loop
finds them empty and adds nothing: the events of the run are those of the
ticks plus the optional finished callback. -/
theorem wait_for_process_events_of_done (cfg : Config) (hasFin : Bool)
    (t : Nat) (rc : Int) (s : PState)
    (h1 : s.outQueue.length ≤ t + 1) (h2 : s.errQueue.length ≤ t + 1) :
    (wait_for_process cfg hasFin t rc s).2.1 =
      (run_ticks cfg (t + 1) s).2 ++
        (if hasFin then [Event.finishedCb rc] else []) := by
  have hq1 : (run_ticks cfg (t + 1) s).1.outQueue = [] := by
    rw [run_ticks_outQueue]
    exact List.drop_eq_nil_of_le h1
  have hq2 : (run_ticks cfg (t + 1) s).1.errQueue = [] := by
    rw [run_ticks_errQueue]
    exact List.drop_eq_nil_of_le h2
  simp [wait_for_process, drain_loop_empty cfg _ hq1 hq2]

theorem filter_ne_replicate (n : Nat) :
    (List.replicate n "").filter (fun l => l ≠ "") = [] := by
  induction n with
  | zero => rfl
  | succ m ih => simp [List.replicate_succ, List.filter_cons, ih]

theorem enqueue_lines_length (raw : List String) (n : Nat) :
    (enqueue_lines raw n).length = raw.length + n := by
  simp [enqueue_lines]

/-- The non-empty entries a listener thread enqueues are exactly the
non-blank rstripped lines, in order; the post-end empty strings vanish. -/
theorem enqueue_lines_filter (raw : List String) (n : Nat) :
    (enqueue_lines raw n).filter (fun l => l ≠ "") =
      (raw.map rstrip).filter (fun l => l ≠ "") := by
  simp [enqueue_lines, List.filter_append, filter_ne_replicate]

/-- A resolver under which every program launches. -/
def resolve_all : String → Option SpawnException := fun _ => none

/-- A resolver under which no program exists. -/
def resolve_none : String → Option SpawnException :=
  fun n => some (SpawnException.fileNotFound n)

/-- Claim C3 as stated is false: with pathPrepend entries a then b and an
inherited PATH P, the child PATH built by the code is b;a;P, while the
claimed PATH, the entries in argument order with the first entry first,
is a;b;P; the two differ. -/
theorem C3_counterexample :
    env_get (build_local_env ["a", "b"] [("PATH", "P")]) "PATH" = "b;a;P" ∧
    spec_child_path ["a", "b"] ";" (env_get [("PATH", "P")] "PATH") = "a;b;P" ∧
    ("b;a;P" : String) ≠ "a;b;P" :=
  ⟨rfl, rfl, by decide⟩

/-- Claim C3 amended: for every pathPrepend list, the PATH of the child
environment equals the entries in reverse argument order, each followed by
a literal semicolon regardless of platform, prepended before the inherited
PATH, so the last entry ends up first with the highest priority. -/
theorem C3_amended (resolve : String → Option SpawnException) (cmd : Cmd)
    (addPaths : List String) (callerEnv : Env) (cfg : Config)
    (hasFinishedCb : Bool) (child : ChildBehavior) (eofOut eofErr t : Nat) :
    env_get (execute resolve cmd addPaths callerEnv cfg hasFinishedCb child
        eofOut eofErr t).childEnv "PATH" =
      spec_child_path addPaths.reverse ";" (env_get callerEnv "PATH") := by
  have hchild : (execute resolve cmd addPaths callerEnv cfg hasFinishedCb child
      eofOut eofErr t).childEnv = build_local_env addPaths callerEnv := by
    cases hp : popen resolve cmd <;> cases hasFinishedCb <;> simp [execute, hp]
  rw [hchild, build_local_env_path]

/-- Claim C4 as stated is false: for the empty token list the run does
not fail with a distinct invalid command error; the spawn call itself
raises IndexError, which is what the caller sees. -/
theorem C4_counterexample :
    run_error (execute resolve_none (Cmd.list []) [] [("PATH", "P")]
        ⟨true, true, false⟩ false ⟨[], [], 0⟩ 0 0 0) =
      some (RunError.spawnError SpawnException.indexError) ∧
    run_error (execute resolve_none (Cmd.list []) [] [("PATH", "P")]
        ⟨true, true, false⟩ false ⟨[], [], 0⟩ 0 0 0) ≠
      some RunError.invalidCommand ∧
    (execute resolve_none (Cmd.list []) [] [("PATH", "P")]
        ⟨true, true, false⟩ false ⟨[], [], 0⟩ 0 0 0).readersStarted = false :=
  ⟨rfl, by decide, rfl⟩

/-- Claim C4 amended: for every empty command input, an empty token list
or an empty string, the run fails synchronously with the exception the
spawn call itself raises, IndexError for the empty list and the file not
found error for the empty string, before any child process is created and
before any thread is started; the code performs no validation of its own
and defines no invalid command error. -/
theorem C4_amended (resolve : String → Option SpawnException)
    (addPaths : List String) (callerEnv : Env) (cfg : Config)
    (hasFinishedCb : Bool) (child : ChildBehavior) (eofOut eofErr t : Nat)
    (hres : resolve "" = some (SpawnException.fileNotFound "")) :
    (execute resolve (Cmd.list []) addPaths callerEnv cfg hasFinishedCb child
        eofOut eofErr t).result = Except.error SpawnException.indexError ∧
    (execute resolve (Cmd.list []) addPaths callerEnv cfg hasFinishedCb child
        eofOut eofErr t).readersStarted = false ∧
    (execute resolve (Cmd.list []) addPaths callerEnv cfg hasFinishedCb child
        eofOut eofErr t).waitTaskStarted = false ∧
    (execute resolve (Cmd.str "") addPaths callerEnv cfg hasFinishedCb child
        eofOut eofErr t).result = Except.error (SpawnException.fileNotFound "") ∧
    (execute resolve (Cmd.str "") addPaths callerEnv cfg hasFinishedCb child
        eofOut eofErr t).readersStarted = false ∧
    (execute resolve (Cmd.str "") addPaths callerEnv cfg hasFinishedCb child
        eofOut eofErr t).waitTaskStarted = false := by
  have hp1 : popen resolve (Cmd.list []) = Except.error SpawnException.indexError := rfl
  have hp2 : popen resolve (Cmd.str "") = Except.error (SpawnException.fileNotFound "") := by
    simp [popen, hres]
  refine ⟨?_, ?_, ?_, ?_, ?_, ?_⟩ <;> simp [execute, hp1, hp2]

/-- Witness for C4 amended at a concrete resolver. -/
theorem C4_amended_witness :
    resolve_none "" = some (SpawnException.fileNotFound "") ∧
    (execute resolve_none (Cmd.list []) [] [("PATH", "P")] ⟨true, true, false⟩
        false ⟨[], [], 0⟩ 0 0 0).result = Except.error SpawnException.indexError :=
  ⟨rfl, (C4_amended resolve_none [] [("PATH", "P")] ⟨true, true, false⟩ false
    ⟨[], [], 0⟩ 0 0 0 rfl).1⟩

/-- Claim C6: when process creation fails, the error is raised
synchronously out of the call itself in both blocking and non-blocking
mode, before any reader thread or background wait thread is started, and
it is never deferred to a background task or to the finished callback. -/
theorem C6_spawn_error (resolve : String → Option SpawnException) (cmd : Cmd)
    (addPaths : List String) (callerEnv : Env) (cfg : Config)
    (hasFinishedCb : Bool) (child : ChildBehavior) (eofOut eofErr t : Nat)
    (e : SpawnException) (hp : popen resolve cmd = Except.error e) :
    (execute resolve cmd addPaths callerEnv cfg hasFinishedCb child
        eofOut eofErr t).result = Except.error e ∧
    (execute resolve cmd addPaths callerEnv cfg hasFinishedCb child
        eofOut eofErr t).readersStarted = false ∧
    (execute resolve cmd addPaths callerEnv cfg hasFinishedCb child
        eofOut eofErr t).waitTaskStarted = false ∧
    (execute resolve cmd addPaths callerEnv cfg hasFinishedCb child
        eofOut eofErr t).events = [] := by
  refine ⟨?_, ?_, ?_, ?_⟩ <;> simp [execute, hp]

/-- Witness for C6 at a concrete missing executable, in both modes. -/
theorem C6_spawn_error_witness :
    popen resolve_none (Cmd.str "missing") =
      Except.error (SpawnException.fileNotFound "missing") ∧
    (execute resolve_none (Cmd.str "missing") [] [("PATH", "P")]
        ⟨true, true, false⟩ true ⟨[], [], 0⟩ 0 0 0).result =
      Except.error (SpawnException.fileNotFound "missing") ∧
    (execute resolve_none (Cmd.str "missing") [] [("PATH", "P")]
        ⟨true, true, false⟩ true ⟨[], [], 0⟩ 0 0 0).waitTaskStarted = false :=
  ⟨rfl,
    (C6_spawn_error resolve_none (Cmd.str "missing") [] [("PATH", "P")]
      ⟨true, true, false⟩ true ⟨[], [], 0⟩ 0 0 0
      (SpawnException.fileNotFound "missing") rfl).1,
    (C6_spawn_error resolve_none (Cmd.str "missing") [] [("PATH", "P")]
      ⟨true, true, false⟩ true ⟨[], [], 0⟩ 0 0 0
      (SpawnException.fileNotFound "missing") rfl).2.2.1⟩

/-- Claim C8: the caller environment is left unchanged by every run, and
the child environment differs from it at most at PATH: every other
variable reads the same in both. -/
theorem C8_env_frame (resolve : String → Option SpawnException) (cmd : Cmd)
    (addPaths : List String) (callerEnv : Env) (cfg : Config)
    (hasFinishedCb : Bool) (child : ChildBehavior) (eofOut eofErr t : Nat)
    (k : String) (hk : k ≠ "PATH") :
    (execute resolve cmd addPaths callerEnv cfg hasFinishedCb child
        eofOut eofErr t).callerEnv = callerEnv ∧
    env_get (execute resolve cmd addPaths callerEnv cfg hasFinishedCb child
        eofOut eofErr t).childEnv k = env_get callerEnv k := by
  have hcaller : (execute resolve cmd addPaths callerEnv cfg hasFinishedCb child
      eofOut eofErr t).callerEnv = callerEnv := by
    cases hp : popen resolve cmd <;> cases hasFinishedCb <;> simp [execute, hp]
  have hchild : (execute resolve cmd addPaths callerEnv cfg hasFinishedCb child
      eofOut eofErr t).childEnv = build_local_env addPaths callerEnv := by
    cases hp : popen resolve cmd <;> cases hasFinishedCb <;> simp [execute, hp]
  exact ⟨hcaller, by rw [hchild]; exact build_local_env_get_ne addPaths callerEnv k hk⟩

/-- Witness for C8 at a concrete run and a concrete variable. -/
theorem C8_env_frame_witness :
    ("HOME" : String) ≠ "PATH" ∧
    (execute resolve_all (Cmd.str "prog") ["a", "b"]
        [("PATH", "P"), ("HOME", "h")] ⟨true, true, false⟩ false
        ⟨["x\n"], [], 0⟩ 0 0 0).callerEnv = [("PATH", "P"), ("HOME", "h")] ∧
    env_get (execute resolve_all (Cmd.str "prog") ["a", "b"]
        [("PATH", "P"), ("HOME", "h")] ⟨true, true, false⟩ false
        ⟨["x\n"], [], 0⟩ 0 0 0).childEnv "HOME" =
      env_get [("PATH", "P"), ("HOME", "h")] "HOME" :=
  ⟨by decide,
    (C8_env_frame resolve_all (Cmd.str "prog") ["a", "b"]
      [("PATH", "P"), ("HOME", "h")] ⟨true, true, false⟩ false
      ⟨["x\n"], [], 0⟩ 0 0 0 "HOME" (by decide)).1,
    (C8_env_frame resolve_all (Cmd.str "prog") ["a", "b"]
      [("PATH", "P"), ("HOME", "h")] ⟨true, true, false⟩ false
      ⟨["x\n"], [], 0⟩ 0 0 0 "HOME" (by decide)).2⟩

/-- Claim C5: in asynchronous mode, with a finished callback supplied,
the run returns immediately with no result value, the supervisory loop
runs on a background thread, and the finished callback is invoked exactly
once, with the exit code of the child. -/
theorem C5_async (resolve : String → Option SpawnException) (cmd : Cmd)
    (addPaths : List String) (callerEnv : Env) (cfg : Config)
    (child : ChildBehavior) (eofOut eofErr t : Nat)
    (hp : popen resolve cmd = Except.ok ()) :
    (execute resolve cmd addPaths callerEnv cfg true child
        eofOut eofErr t).result = Except.ok none ∧
    (execute resolve cmd addPaths callerEnv cfg true child
        eofOut eofErr t).waitTaskStarted = true ∧
    finishedLines (execute resolve cmd addPaths callerEnv cfg true child
        eofOut eofErr t).events = [child.retcode] := by
  refine ⟨by simp [execute, hp], by simp [execute, hp], ?_⟩
  have hev : (execute resolve cmd addPaths callerEnv cfg true child
      eofOut eofErr t).events =
      (wait_for_process cfg true t child.retcode
        ⟨enqueue_lines child.outLines eofOut,
         enqueue_lines child.errLines eofErr, [], []⟩).2.1 := by
    simp [execute, hp]
  rw [hev, wait_for_process_finished]
  simp

/-- Witness for C5 at a concrete asynchronous run. -/
theorem C5_async_witness :
    popen resolve_all (Cmd.str "prog") = Except.ok () ∧
    (execute resolve_all (Cmd.str "prog") [] [("PATH", "P")]
        ⟨true, true, false⟩ true ⟨["x\n"], ["y\n"], 7⟩ 1 1 2).result =
      Except.ok none ∧
    finishedLines (execute resolve_all (Cmd.str "prog") [] [("PATH", "P")]
        ⟨true, true, false⟩ true ⟨["x\n"], ["y\n"], 7⟩ 1 1 2).events = [7] :=
  ⟨rfl,
    (C5_async resolve_all (Cmd.str "prog") [] [("PATH", "P")]
      ⟨true, true, false⟩ ⟨["x\n"], ["y\n"], 7⟩ 1 1 2 rfl).1,
    (C5_async resolve_all (Cmd.str "prog") [] [("PATH", "P")]
      ⟨true, true, false⟩ ⟨["x\n"], ["y\n"], 7⟩ 1 1 2 rfl).2.2⟩

/-- Claim C2 as stated is false: for a child whose stdout lines are
a-space-newline and a bare newline, the claim demands two stdout callback
invocations with arguments a-space and the empty string, but the code
invokes the stdout callback once, with the trailing space stripped as
well. -/
theorem C2_counterexample :
    stdoutCbLines (execute resolve_all (Cmd.str "prog") [] [("PATH", "P")]
        ⟨true, true, false⟩ false ⟨["a \n", "\n"], [], 0⟩ 0 0 1).events = ["a"] ∧
    (["a"] : List String) ≠ ["a ", ""] := by
  have hp : popen resolve_all (Cmd.str "prog") = Except.ok () := rfl
  refine ⟨?_, by decide⟩
  simp only [execute, hp, wait_for_process]
  rw [drain_loop_eval]
  rfl

/-- Claim C2 amended: in a schedule where the supervisory loop dequeues
every enqueued entry, the stdout callback receives exactly the stdout
lines that are non-empty after Python rstrip, each with all trailing
whitespace removed rather than only the terminator, in the order written,
and blank lines are dropped; the same holds for the stderr callback on
the stderr stream. -/
theorem C2_amended (resolve : String → Option SpawnException) (cmd : Cmd)
    (addPaths : List String) (callerEnv : Env) (cfg : Config)
    (child : ChildBehavior) (eofOut eofErr t : Nat)
    (hcb1 : cfg.hasStdoutCb = true) (hcb2 : cfg.hasStderrCb = true)
    (hp : popen resolve cmd = Except.ok ())
    (h1 : child.outLines.length + eofOut ≤ t + 1)
    (h2 : child.errLines.length + eofErr ≤ t + 1) :
    stdoutCbLines (execute resolve cmd addPaths callerEnv cfg false child
        eofOut eofErr t).events =
      (child.outLines.map rstrip).filter (fun l => l ≠ "") ∧
    stderrCbLines (execute resolve cmd addPaths callerEnv cfg false child
        eofOut eofErr t).events =
      (child.errLines.map rstrip).filter (fun l => l ≠ "") := by
  have h1' : (enqueue_lines child.outLines eofOut).length ≤ t + 1 := by
    rw [enqueue_lines_length]
    omega
  have h2' : (enqueue_lines child.errLines eofErr).length ≤ t + 1 := by
    rw [enqueue_lines_length]
    omega
  have hev : (execute resolve cmd addPaths callerEnv cfg false child
      eofOut eofErr t).events =
      (run_ticks cfg (t + 1)
        ⟨enqueue_lines child.outLines eofOut,
         enqueue_lines child.errLines eofErr, [], []⟩).2 := by
    have hw := wait_for_process_events_of_done cfg false t child.retcode
      ⟨enqueue_lines child.outLines eofOut,
       enqueue_lines child.errLines eofErr, [], []⟩ h1' h2'
    simp [execute, hp, hw]
  constructor
  · rw [hev, run_ticks_stdoutCb cfg hcb1 (t + 1) _ h1']
    exact enqueue_lines_filter child.outLines eofOut
  · rw [hev, run_ticks_stderrCb cfg hcb2 (t + 1) _ h2']
    exact enqueue_lines_filter child.errLines eofErr

/-- Witness for C2 amended at a concrete run with a trailing space, a
blank line and post-end reads. -/
theorem C2_amended_witness :
    popen resolve_all (Cmd.str "prog") = Except.ok () ∧
    (["x \n", "\n"] : List String).length + 1 ≤ 2 + 1 ∧
    (["e\n"] : List String).length + 0 ≤ 2 + 1 ∧
    stdoutCbLines (execute resolve_all (Cmd.str "prog") [] [("PATH", "P")]
        ⟨true, true, false⟩ false ⟨["x \n", "\n"], ["e\n"], 5⟩ 1 0 2).events =
      ((["x \n", "\n"] : List String).map rstrip).filter (fun l => l ≠ "") :=
  ⟨rfl, by decide, by decide,
    (C2_amended resolve_all (Cmd.str "prog") [] [("PATH", "P")]
      ⟨true, true, false⟩ ⟨["x \n", "\n"], ["e\n"], 5⟩ 1 0 2 rfl rfl rfl
      (by decide) (by decide)).1⟩

/-- Claim C7 as stated is false: with silent set and no callbacks, a
dispatched line is appended to the returned stdout buffer while being
handed to no callback and printed to no default sink, so appending and
handing are not equivalent. -/
theorem C7_counterexample :
    (execute resolve_all (Cmd.str "prog") [] [("PATH", "P")]
        ⟨false, false, true⟩ false ⟨["a\n"], [], 0⟩ 0 0 0).result =
      Except.ok (some (0, ["a"], [])) ∧
    (execute resolve_all (Cmd.str "prog") [] [("PATH", "P")]
        ⟨false, false, true⟩ false ⟨["a\n"], [], 0⟩ 0 0 0).events = [] := by
  have hp : popen resolve_all (Cmd.str "prog") = Except.ok () := rfl
  constructor
  · simp only [execute, hp, wait_for_process]
    rw [drain_loop_eval]
    rfl
  · simp only [execute, hp, wait_for_process]
    rw [drain_loop_eval]
    rfl

/-- Claim C7 amended: in blocking mode, whenever each stream has a
callback or silent is unset, the returned buffers equal exactly the
ordered lines handed to the callback of that stream, or printed to its
default sink when no callback was supplied; with silent set and no
callback a line is buffered without being handed anywhere. -/
theorem C7_amended (resolve : String → Option SpawnException) (cmd : Cmd)
    (addPaths : List String) (callerEnv : Env) (cfg : Config)
    (child : ChildBehavior) (eofOut eofErr t : Nat)
    (h1 : cfg.hasStdoutCb = true ∨ cfg.silent = false)
    (h2 : cfg.hasStderrCb = true ∨ cfg.silent = false)
    (hp : popen resolve cmd = Except.ok ()) :
    (execute resolve cmd addPaths callerEnv cfg false child
        eofOut eofErr t).result =
      Except.ok (some (child.retcode,
        out_sink_lines cfg (execute resolve cmd addPaths callerEnv cfg false
          child eofOut eofErr t).events,
        err_sink_lines cfg (execute resolve cmd addPaths callerEnv cfg false
          child eofOut eofErr t).events)) := by
  have hsb := wait_for_process_out_buffer cfg false t child.retcode
    ⟨enqueue_lines child.outLines eofOut,
     enqueue_lines child.errLines eofErr, [], []⟩ h1
  have hseb := wait_for_process_err_buffer cfg false t child.retcode
    ⟨enqueue_lines child.outLines eofOut,
     enqueue_lines child.errLines eofErr, [], []⟩ h2
  simp only [List.nil_append] at hsb hseb
  simp [execute, hp, hsb, hseb, wait_for_process_retcode]

/-- Witness for C7 amended at a concrete run with no callbacks and silent
unset: the returned buffers equal the printed lines. -/
theorem C7_amended_witness :
    ((⟨false, false, false⟩ : Config).hasStdoutCb = true ∨
      (⟨false, false, false⟩ : Config).silent = false) ∧
    popen resolve_all (Cmd.str "prog") = Except.ok () ∧
    (execute resolve_all (Cmd.str "prog") [] [("PATH", "P")]
        ⟨false, false, false⟩ false ⟨["x\n"], ["y\n"], 3⟩ 0 0 1).result =
      Except.ok (some (3,
        out_sink_lines ⟨false, false, false⟩
          (execute resolve_all (Cmd.str "prog") [] [("PATH", "P")]
            ⟨false, false, false⟩ false ⟨["x\n"], ["y\n"], 3⟩ 0 0 1).events,
        err_sink_lines ⟨false, false, false⟩
          (execute resolve_all (Cmd.str "prog") [] [("PATH", "P")]
            ⟨false, false, false⟩ false ⟨["x\n"], ["y\n"], 3⟩ 0 0 1).events)) :=
  ⟨Or.inr rfl, rfl,
    C7_amended resolve_all (Cmd.str "prog") [] [("PATH", "P")]
      ⟨false, false, false⟩ ⟨["x\n"], ["y\n"], 3⟩ 0 0 1
      (Or.inr rfl) (Or.inr rfl) rfl⟩

/-- Claim C1 describes a drain phase that leaves no enqueued line
undelivered; the code contradicts it: for a synchronous run of a child
that wrote three stdout lines and nothing to stderr, with all three lines
enqueued when the exit is observed after one tick, the second drain break
fires because the stderr queue holds no non-empty line, and the run
returns with stdout buffer a, b while the enqueued line c is still in the
queue, never dispatched. -/
theorem C1_drain_drops_enqueued_lines :
    enqueue_lines ["a\n", "b\n", "c\n"] 0 = ["a", "b", "c"] ∧
    (execute resolve_all (Cmd.str "prog") [] [("PATH", "P")]
        ⟨true, true, false⟩ false ⟨["a\n", "b\n", "c\n"], [], 0⟩ 0 0 0).result =
      Except.ok (some (0, ["a", "b"], [])) ∧
    (execute resolve_all (Cmd.str "prog") [] [("PATH", "P")]
        ⟨true, true, false⟩ false ⟨["a\n", "b\n", "c\n"], [], 0⟩ 0 0 0).finalOutQueue =
      ["c"] := by
  have hp : popen resolve_all (Cmd.str "prog") = Except.ok () := rfl
  refine ⟨rfl, ?_, ?_⟩ <;>
    (simp only [execute, hp, wait_for_process]; rw [drain_loop_eval]; rfl)

/-- Claim C9: a line that is empty after stripping trailing whitespace is
enqueued as the empty string and, on whichever stream it arrived, the
dispatch tick dequeues it without appending it to a buffer, without
invoking a callback and without printing it. -/
theorem C9_blank_lines (cfg : Config) (raw : String)
    (outQ errQ so se : List String) (h : rstrip raw = "") :
    (handle_lines cfg ⟨rstrip raw :: outQ, errQ, so, se⟩).1.outQueue = outQ ∧
    (handle_lines cfg ⟨rstrip raw :: outQ, errQ, so, se⟩).1.stdoutBuffer = so ∧
    stdoutCbLines (handle_lines cfg ⟨rstrip raw :: outQ, errQ, so, se⟩).2 = [] ∧
    printOutLines (handle_lines cfg ⟨rstrip raw :: outQ, errQ, so, se⟩).2 = [] ∧
    (handle_lines cfg ⟨outQ, rstrip raw :: errQ, so, se⟩).1.errQueue = errQ ∧
    (handle_lines cfg ⟨outQ, rstrip raw :: errQ, so, se⟩).1.stderrBuffer = se ∧
    stderrCbLines (handle_lines cfg ⟨outQ, rstrip raw :: errQ, so, se⟩).2 = [] ∧
    printErrLines (handle_lines cfg ⟨outQ, rstrip raw :: errQ, so, se⟩).2 = [] := by
  rw [h]
  refine ⟨?_, ?_, ?_, ?_, ?_, ?_, ?_, ?_⟩
  · rw [handle_lines_outQueue]
    rfl
  · rw [handle_lines_stdoutBuffer]
    simp
  · rw [handle_lines_events]
    split_ifs <;> simp_all
  · rw [handle_lines_events]
    split_ifs <;> simp_all
  · rw [handle_lines_errQueue]
    rfl
  · rw [handle_lines_stderrBuffer]
    simp
  · rw [handle_lines_events]
    split_ifs <;> simp_all
  · rw [handle_lines_events]
    split_ifs <;> simp_all

/-- Witness for C9 at a concrete whitespace-only line. -/
theorem C9_blank_lines_witness :
    rstrip " \t" = "" ∧
    stdoutCbLines (handle_lines ⟨true, true, false⟩
      ⟨rstrip " \t" :: ["x"], ["y"], ["b"], []⟩).2 = [] ∧
    (handle_lines ⟨true, true, false⟩
      ⟨rstrip " \t" :: ["x"], ["y"], ["b"], []⟩).1.stdoutBuffer = ["b"] :=
  ⟨rfl,
    (C9_blank_lines ⟨true, true, false⟩ " \t" ["x"] ["y"] ["b"] [] rfl).2.2.1,
    (C9_blank_lines ⟨true, true, false⟩ " \t" ["x"] ["y"] ["b"] [] rfl).2.1⟩

/-- Claim C10: the silent flag only suppresses the default prints: the
state reached by a dispatch tick, the lines handed to the stdout callback
and the lines handed to the stderr callback are identical with silent set
or unset, and with silent set nothing is printed to either default
sink. -/
theorem C10_silent_only_print (hso hse : Bool) (s : PState) :
    (handle_lines ⟨hso, hse, true⟩ s).1 = (handle_lines ⟨hso, hse, false⟩ s).1 ∧
    stdoutCbLines (handle_lines ⟨hso, hse, true⟩ s).2 =
      stdoutCbLines (handle_lines ⟨hso, hse, false⟩ s).2 ∧
    stderrCbLines (handle_lines ⟨hso, hse, true⟩ s).2 =
      stderrCbLines (handle_lines ⟨hso, hse, false⟩ s).2 ∧
    printOutLines (handle_lines ⟨hso, hse, true⟩ s).2 = [] ∧
    printErrLines (handle_lines ⟨hso, hse, true⟩ s).2 = [] := by
  refine ⟨rfl, ?_, ?_, ?_, ?_⟩
  · rw [handle_lines_events, handle_lines_events]
    cases hso <;> cases hse <;> split_ifs <;>
      simp [dispatch_out, dispatch_err, stdoutCbLines]
  · rw [handle_lines_events, handle_lines_events]
    cases hso <;> cases hse <;> split_ifs <;>
      simp [dispatch_out, dispatch_err, stderrCbLines]
  · rw [handle_lines_events]
    cases hso <;> cases hse <;> split_ifs <;>
      simp [dispatch_out, dispatch_err, printOutLines]
  · rw [handle_lines_events]
    cases hso <;> cases hse <;> split_ifs <;>
      simp [dispatch_out, dispatch_err, printErrLines]

end Subpiper
